import Mathlib

/-!
Verification of the calculation engine of the gilt-ladder calculator
(`src/app.py`, class `GiltLadderCalculator`).

The three engine operations are shallowly embedded over ℚ:

* `calculate_yield_to_maturity` — the approximate yield-to-maturity
  formula (lines 24–31 of `app.py`).  Python raises `ZeroDivisionError`
  when a denominator is zero, so the embedding returns
  `Except Err ℚ`, with `Err.zeroDivision` marking the raised exception.
* `calculate_tax_liability` — UK progressive income-tax banding
  (lines 33–56).  The Python function is total (its one division is
  guarded by `total_income > 0`), so the embedding is a total function.
* `create_bond_ladder` — even-split ladder allocation (lines 58–77).
  The Python code reads `datetime.now().year`; the ambient clock is made
  an explicit `current_year` argument.  When `total_investment = 0` and
  the loop runs at least once, the `Allocation_Percentage` division
  raises `ZeroDivisionError`, and when `ladder_years = 0` the
  `allocation_per_year` division raises; both are modelled as
  `Except.error Err.zeroDivision`, placed exactly where Python would
  first raise.

Machine floats are modelled as exact rationals (`0.20` as `20/100`,
`0.1` as `1/10`, …).
-/

/-- Exception kinds: `zeroDivision` is Python's `ZeroDivisionError`;
`invalidInput` is the `InvalidInput` error kind named by the design
documentation (never produced by the code). -/
inductive Err where
  | zeroDivision
  | invalidInput
deriving DecidableEq, Repr

instance exceptDecEq {ε α : Type} [DecidableEq ε] [DecidableEq α] :
    DecidableEq (Except ε α) := fun a b =>
  match a, b with
  | .error e1, .error e2 =>
    if h : e1 = e2 then isTrue (by rw [h])
    else isFalse (by intro hh; injection hh; exact h ‹_›)
  | .error _, .ok _ => isFalse (by intro h; exact Except.noConfusion h)
  | .ok _, .error _ => isFalse (by intro h; exact Except.noConfusion h)
  | .ok a1, .ok a2 =>
    if h : a1 = a2 then isTrue (by rw [h])
    else isFalse (by intro hh; injection hh; exact h ‹_›)

/-- Constant `self.personal_allowance = 12570` (2024/25 tax year), `app.py` line 20. -/
def personal_allowance : ℚ := 12570

/-- Constant `self.basic_rate_threshold = 50270`, `app.py` line 21. -/
def basic_rate_threshold : ℚ := 50270

/-- Constant `self.higher_rate_threshold = 125140`, `app.py` line 22. -/
def higher_rate_threshold : ℚ := 125140

/-- The body of `calculate_yield_to_maturity` (lines 27–31), assuming no
denominator is zero. -/
def ytmFormula (price face_value coupon_rate years_to_maturity : ℚ) : ℚ :=
  let annual_coupon := face_value * (coupon_rate / 100)
  let capital_gain := (face_value - price) / years_to_maturity
  let average_price := (face_value + price) / 2
  (annual_coupon + capital_gain) / average_price * 100

/-- Embedding of `GiltLadderCalculator.calculate_yield_to_maturity` (lines 24–31).
Python raises `ZeroDivisionError` at line 28 when `years_to_maturity = 0`
and at line 30 when `average_price = (face_value + price)/2 = 0`. -/
def calculate_yield_to_maturity (price face_value coupon_rate years_to_maturity : ℚ) :
    Except Err ℚ :=
  if years_to_maturity = 0 then .error .zeroDivision
  else if (face_value + price) / 2 = 0 then .error .zeroDivision
  else .ok (ytmFormula price face_value coupon_rate years_to_maturity)

/-- The dict returned by `calculate_tax_liability` (lines 51–56). -/
structure TaxResult where
  gross_income : ℚ
  tax_liability : ℚ
  net_income : ℚ
  effective_rate : ℚ
deriving DecidableEq, Repr

/-- The `if`/`elif` band chain of `calculate_tax_liability`
(lines 37–49), as a function of `total_income`. -/
def taxOnIncome (total_income : ℚ) : ℚ :=
  if total_income ≤ personal_allowance then 0
  else if total_income ≤ basic_rate_threshold then
    (total_income - personal_allowance) * (20/100)
  else if total_income ≤ higher_rate_threshold then
    (basic_rate_threshold - personal_allowance) * (20/100)
      + (total_income - basic_rate_threshold) * (40/100)
  else
    (basic_rate_threshold - personal_allowance) * (20/100)
      + (higher_rate_threshold - basic_rate_threshold) * (40/100)
      + (total_income - higher_rate_threshold) * (45/100)

/-- Embedding of `GiltLadderCalculator.calculate_tax_liability` (lines 33–56).
Total: the only division is guarded by `if total_income > 0`. -/
def calculate_tax_liability (income : ℚ) (pension_income : ℚ := 0) : TaxResult :=
  let total_income := income + pension_income
  let tax := taxOnIncome total_income
  { gross_income := total_income
    tax_liability := tax
    net_income := total_income - tax
    effective_rate := if total_income > 0 then tax / total_income * 100 else 0 }

/-- One row of the ladder DataFrame (lines 69–75). -/
structure LadderRow where
  Maturity_Year : ℤ
  Allocation : ℚ
  Target_Yield : ℚ
  Annual_Income : ℚ
  Allocation_Percentage : ℚ
deriving DecidableEq, Repr

/-- Embedding of `GiltLadderCalculator.create_bond_ladder` (lines 58–77).
`current_year` stands for `datetime.now().year` read at line 65.
Python raises `ZeroDivisionError` at line 61 when `ladder_years = 0`,
and at line 74 (inside the first loop iteration, which runs exactly when
`ladder_years ≥ 1`) when `total_investment = 0`. -/
def create_bond_ladder (total_investment : ℚ) (ladder_years : ℤ) (target_yield : ℚ)
    (current_year : ℤ) : Except Err (List LadderRow) :=
  if ladder_years = 0 then .error .zeroDivision
  else
    let allocation_per_year := total_investment / (ladder_years : ℚ)
    if 0 < ladder_years ∧ total_investment = 0 then .error .zeroDivision
    else .ok ((List.range ladder_years.toNat).map (fun (i : ℕ) =>
      let year : ℤ := (i : ℤ) + 1
      let maturity_year := current_year + year
      let estimated_yield := target_yield + ((year : ℚ) - 1) * (1/10)
      let annual_income := allocation_per_year * (estimated_yield / 100)
      { Maturity_Year := maturity_year
        Allocation := allocation_per_year
        Target_Yield := estimated_yield
        Annual_Income := annual_income
        Allocation_Percentage := allocation_per_year / total_investment * 100 }))

/-- Every field of a ladder row except `Maturity_Year` (the only field
that involves the clock year). -/
def rowData (r : LadderRow) : ℚ × ℚ × ℚ × ℚ :=
  (r.Allocation, r.Target_Yield, r.Annual_Income, r.Allocation_Percentage)

/-! ## Theorems -/

/-- Projection of `calculate_tax_liability`: gross income. -/
theorem calc_tax_gross (inc pen : ℚ) :
    (calculate_tax_liability inc pen).gross_income = inc + pen := rfl

/-- Projection of `calculate_tax_liability`: tax liability. -/
theorem calc_tax_tax (inc pen : ℚ) :
    (calculate_tax_liability inc pen).tax_liability = taxOnIncome (inc + pen) := rfl

/-- Projection of `calculate_tax_liability`: net income. -/
theorem calc_tax_net (inc pen : ℚ) :
    (calculate_tax_liability inc pen).net_income
      = inc + pen - taxOnIncome (inc + pen) := rfl

/-- Projection of `calculate_tax_liability`: effective rate. -/
theorem calc_tax_eff (inc pen : ℚ) :
    (calculate_tax_liability inc pen).effective_rate
      = if inc + pen > 0 then taxOnIncome (inc + pen) / (inc + pen) * 100 else 0 := rfl

/-- C9: `calculate_tax_liability 27000 13000` (total 40,000, 2024/25
bands) returns tax 5,486, net income 34,514, and an effective rate of
approximately 13.7 % (exactly 13.715, within 0.05 of 13.7). -/
theorem tax_example_totals :
    (calculate_tax_liability 27000 13000).tax_liability = 5486
    ∧ (calculate_tax_liability 27000 13000).net_income = 34514
    ∧ |(calculate_tax_liability 27000 13000).effective_rate - 137/10| ≤ 1/20 := by
  refine ⟨?_, ?_, ?_⟩ <;>
    norm_num [calc_tax_tax, calc_tax_net, calc_tax_eff, taxOnIncome,
      personal_allowance, basic_rate_threshold, higher_rate_threshold, abs_le]

/-- C8: with `price = face_value` the capital-gain term vanishes and
`calculate_yield_to_maturity` returns exactly the coupon rate. -/
theorem ytm_at_par (face_value coupon_rate years_to_maturity : ℚ)
    (hfv : 0 < face_value) (hc : 0 ≤ coupon_rate) (hy : 0 < years_to_maturity) :
    calculate_yield_to_maturity face_value face_value coupon_rate years_to_maturity
      = .ok coupon_rate := by
  unfold calculate_yield_to_maturity ytmFormula
  rw [if_neg (ne_of_gt hy), if_neg (by intro h; nlinarith)]
  congr 1
  have h2 : face_value ≠ 0 := ne_of_gt hfv
  have h3 : years_to_maturity ≠ 0 := ne_of_gt hy
  field_simp
  ring

/-- C8 witness at `face_value = 100`, `coupon = 5`, `years = 7`. -/
theorem ytm_at_par_witness :
    calculate_yield_to_maturity 100 100 5 7 = .ok 5 :=
  ytm_at_par 100 5 7 (by norm_num) (by norm_num) (by norm_num)

/-- The band chain never returns a negative tax. -/
theorem taxOnIncome_nonneg (t : ℚ) : 0 ≤ taxOnIncome t := by
  unfold taxOnIncome personal_allowance basic_rate_threshold higher_rate_threshold
  split_ifs <;> linarith

/-- C7: for non-negative incomes the returned record satisfies the
`TaxResult` invariants: non-negative tax, `net = gross - tax`, and
`effective_rate = tax/gross*100` (`0` when `gross = 0`). -/
theorem tax_result_invariants (income pension_income : ℚ)
    (h1 : 0 ≤ income) (h2 : 0 ≤ pension_income) :
    0 ≤ (calculate_tax_liability income pension_income).tax_liability
    ∧ (calculate_tax_liability income pension_income).net_income
        = (calculate_tax_liability income pension_income).gross_income
          - (calculate_tax_liability income pension_income).tax_liability
    ∧ ((calculate_tax_liability income pension_income).gross_income = 0 →
        (calculate_tax_liability income pension_income).effective_rate = 0)
    ∧ (0 < (calculate_tax_liability income pension_income).gross_income →
        (calculate_tax_liability income pension_income).effective_rate
          = (calculate_tax_liability income pension_income).tax_liability
            / (calculate_tax_liability income pension_income).gross_income * 100) := by
  refine ⟨?_, ?_, ?_, ?_⟩
  · rw [calc_tax_tax]
    exact taxOnIncome_nonneg _
  · rfl
  · intro h
    rw [calc_tax_gross] at h
    rw [calc_tax_eff, if_neg (by rw [h]; norm_num)]
  · intro h
    rw [calc_tax_gross] at h
    rw [calc_tax_eff, if_pos h, calc_tax_tax, calc_tax_gross]

/-- C7 witness at `income = 30000`, `pension = 20000`. -/
theorem tax_result_invariants_witness :
    0 ≤ (calculate_tax_liability 30000 20000).tax_liability
    ∧ (calculate_tax_liability 30000 20000).net_income
        = (calculate_tax_liability 30000 20000).gross_income
          - (calculate_tax_liability 30000 20000).tax_liability
    ∧ ((calculate_tax_liability 30000 20000).gross_income = 0 →
        (calculate_tax_liability 30000 20000).effective_rate = 0)
    ∧ (0 < (calculate_tax_liability 30000 20000).gross_income →
        (calculate_tax_liability 30000 20000).effective_rate
          = (calculate_tax_liability 30000 20000).tax_liability
            / (calculate_tax_liability 30000 20000).gross_income * 100) :=
  tax_result_invariants 30000 20000 (by norm_num) (by norm_num)

/-- C4 counterexample: at `total_investment = 0` (horizon 5) the ladder
builder does not succeed — the `Allocation_Percentage` division raises
`ZeroDivisionError`. -/
theorem ladder_zero_investment_cex :
    create_bond_ladder 0 5 (9/2) 2025 = .error .zeroDivision := by
  decide

/-- C4 amended: for every horizon ≥ 1, calling the ladder builder with
`total_investment = 0` raises `ZeroDivisionError` (at the
`Allocation_Percentage` division) instead of returning rows. -/
theorem ladder_zero_investment_faults (target_yield : ℚ) (ladder_years current_year : ℤ)
    (hy : 1 ≤ ladder_years) :
    create_bond_ladder 0 ladder_years target_yield current_year
      = .error .zeroDivision := by
  have h0 : ladder_years ≠ 0 := by omega
  have h1 : (0 : ℤ) < ladder_years := by omega
  simp [create_bond_ladder, h0, h1]

/-- C4 amended witness at horizon 3. -/
theorem ladder_zero_investment_faults_witness :
    create_bond_ladder 0 3 4 2025 = .error .zeroDivision :=
  ladder_zero_investment_faults 4 3 2025 (by norm_num)

/-- C5 counterexample: out-of-domain inputs are not rejected with
`InvalidInput`: `years_to_maturity = 0` propagates a `ZeroDivisionError`,
a negative income is computed on (returning tax 0), and a zero-length
horizon also propagates a `ZeroDivisionError`. -/
theorem no_validation_cex :
    calculate_yield_to_maturity 95 100 5 0 = .error .zeroDivision
    ∧ Err.zeroDivision ≠ Err.invalidInput
    ∧ calculate_tax_liability (-1000) 0
        = { gross_income := -1000, tax_liability := 0,
            net_income := -1000, effective_rate := 0 }
    ∧ create_bond_ladder 100 0 (9/2) 2025 = .error .zeroDivision := by
  refine ⟨by decide, by decide, ?_, by decide⟩
  have h1 : (-1000 : ℚ) + 0 ≤ personal_allowance := by
    unfold personal_allowance; norm_num
  have h2 : ¬((-1000 : ℚ) + 0 > 0) := by norm_num
  simp only [calculate_tax_liability, taxOnIncome]
  rw [if_pos h1, if_neg h2]
  norm_num

/-- C5 amended: the code performs no input validation and never produces
an `InvalidInput` error: zero denominators (`years_to_maturity = 0`,
`average_price = 0`, `ladder_years = 0`) propagate `ZeroDivisionError`,
and negative total income is simply computed on, yielding tax 0. -/
theorem no_input_validation :
    (∀ p fv c : ℚ, calculate_yield_to_maturity p fv c 0 = .error .zeroDivision)
    ∧ (∀ p fv c n : ℚ, n ≠ 0 → fv + p = 0 →
        calculate_yield_to_maturity p fv c n = .error .zeroDivision)
    ∧ (∀ inc pen : ℚ, inc + pen < 0 →
        calculate_tax_liability inc pen
          = { gross_income := inc + pen, tax_liability := 0,
              net_income := inc + pen, effective_rate := 0 })
    ∧ (∀ t ty : ℚ, ∀ cy : ℤ, create_bond_ladder t 0 ty cy = .error .zeroDivision)
    ∧ (∀ p fv c n : ℚ, calculate_yield_to_maturity p fv c n ≠ .error .invalidInput)
    ∧ (∀ t ty : ℚ, ∀ y cy : ℤ, create_bond_ladder t y ty cy ≠ .error .invalidInput) := by
  refine ⟨?_, ?_, ?_, ?_, ?_, ?_⟩
  · intro p fv c
    simp [calculate_yield_to_maturity]
  · intro p fv c n hn hz
    unfold calculate_yield_to_maturity
    rw [if_neg hn, if_pos (by rw [hz]; norm_num)]
  · intro inc pen h
    have h1 : inc + pen ≤ personal_allowance := by
      unfold personal_allowance; linarith
    have h2 : ¬(inc + pen > 0) := by linarith
    simp only [calculate_tax_liability, taxOnIncome]
    rw [if_pos h1, if_neg h2]
    norm_num
  · intro t ty cy
    simp [create_bond_ladder]
  · intro p fv c n
    unfold calculate_yield_to_maturity
    split_ifs <;> simp
  · intro t ty y cy
    unfold create_bond_ladder
    split_ifs <;> simp

/-- C5 amended witness: `average_price = 0` (price = −face) raises
`ZeroDivisionError`, and negative incomes produce a plain result. -/
theorem no_input_validation_witness :
    calculate_yield_to_maturity (-100) 100 5 10 = .error .zeroDivision
    ∧ calculate_tax_liability (-1000) (-500)
        = { gross_income := -1500, tax_liability := 0,
            net_income := -1500, effective_rate := 0 } :=
  ⟨no_input_validation.2.1 (-100) 100 5 10 (by norm_num) (by norm_num),
   by
     have h := no_input_validation.2.2.1 (-1000) (-500) (by norm_num)
     norm_num at h ⊢
     exact h⟩

/-- C1 counterexample: the ladder builder reads the ambient clock
(`datetime.now().year`); with every claimed input fixed, calls in two
different clock years return different ladders. -/
theorem ladder_clock_dependence_cex :
    create_bond_ladder 100000 5 (9/2) 2024 ≠ create_bond_ladder 100000 5 (9/2) 2025 := by
  decide

/-- C1 amended: the tax and yield operations depend only on their
arguments, and the ladder builder depends on the clock year only through
each row's `Maturity_Year`: erasing that field, its output (including
success or failure) is determined by the remaining inputs alone. -/
theorem ladder_clock_only_maturity (total_investment target_yield : ℚ)
    (ladder_years cy1 cy2 : ℤ) :
    (create_bond_ladder total_investment ladder_years target_yield cy1).map
        (List.map rowData)
      = (create_bond_ladder total_investment ladder_years target_yield cy2).map
        (List.map rowData) := by
  unfold create_bond_ladder
  split_ifs
  · rfl
  · rfl
  · simp only [Except.map, List.map_map]
    congr 1

/-- C6: for a successfully built ladder, row `k` (1-based, `k ≤ horizon`)
has target yield `base_target_yield + (k−1) × 0.1`. -/
theorem ladder_yield_slope (total_investment target_yield : ℚ)
    (ladder_years current_year : ℤ) (k : ℕ)
    (ht : total_investment ≠ 0) (hk1 : 1 ≤ k) (hk2 : (k : ℤ) ≤ ladder_years) :
    (create_bond_ladder total_investment ladder_years target_yield current_year).map
        (fun rows => (rows[k - 1]?).map LadderRow.Target_Yield)
      = .ok (some (target_yield + ((k : ℚ) - 1) * (1/10))) := by
  have h0 : ladder_years ≠ 0 := by omega
  have hlt : k - 1 < ladder_years.toNat := by omega
  simp only [create_bond_ladder, if_neg h0]
  rw [if_neg (by rintro ⟨-, h⟩; exact ht h)]
  simp only [Except.map, List.getElem?_map, List.getElem?_range hlt, Option.map_some,
    Option.map_some', Except.ok.injEq, Option.some.injEq]
  have hc : ((k - 1 : ℕ) : ℤ) = (k : ℤ) - 1 := by omega
  rw [hc]
  push_cast
  ring

/-- C6 witness: ladder of 30,000 over 3 years, base yield 4; row 2 has
yield 4.1. -/
theorem ladder_yield_slope_witness :
    (create_bond_ladder 30000 3 4 2025).map
        (fun rows => (rows[1]?).map LadderRow.Target_Yield)
      = .ok (some (4 + ((2 : ℚ) - 1) * (1/10))) :=
  ladder_yield_slope 30000 4 3 2025 2 (by norm_num) (by norm_num) (by norm_num)

/-- Sum of a constant-valued map over a list. -/
theorem list_sum_const {α : Type} (l : List α) (c : ℚ) :
    (l.map (fun _ => c)).sum = l.length * c := by
  induction l with
  | nil => simp
  | cons a l ih => simp [ih]; ring

/-- C3: for positive total investment and horizon ≥ 1, the ladder's
`Allocation` column sums to the total investment and its
`Allocation_Percentage` column sums to 100. -/
theorem ladder_sums (total_investment target_yield : ℚ) (ladder_years current_year : ℤ)
    (ht : 0 < total_investment) (hy : 1 ≤ ladder_years) :
    (create_bond_ladder total_investment ladder_years target_yield current_year).map
        (fun rows => ((rows.map LadderRow.Allocation).sum,
                      (rows.map LadderRow.Allocation_Percentage).sum))
      = .ok (total_investment, 100) := by
  have h0 : ladder_years ≠ 0 := by omega
  have ht2 : total_investment ≠ 0 := ne_of_gt ht
  have hq : (ladder_years : ℚ) ≠ 0 := Int.cast_ne_zero.mpr h0
  have hn : ((ladder_years.toNat : ℤ) : ℚ) = (ladder_years : ℚ) := by
    rw [Int.toNat_of_nonneg (by omega)]
  simp only [create_bond_ladder, if_neg h0]
  rw [if_neg (by rintro ⟨-, h⟩; exact ht2 h)]
  simp only [Except.map, List.map_map, Function.comp_def]
  rw [list_sum_const, list_sum_const, List.length_range]
  simp only [Except.ok.injEq, Prod.mk.injEq]
  constructor
  · push_cast at hn ⊢
    rw [hn]
    field_simp
  · push_cast at hn ⊢
    rw [hn]
    field_simp
    ring

/-- C3 witness: 100,000 over 5 years sums back to 100,000 and 100 %. -/
theorem ladder_sums_witness :
    (create_bond_ladder 100000 5 (9/2) 2025).map
        (fun rows => ((rows.map LadderRow.Allocation).sum,
                      (rows.map LadderRow.Allocation_Percentage).sum))
      = .ok (100000, 100) :=
  ladder_sums 100000 (9/2) 5 2025 (by norm_num) (by norm_num)

/-- The band chain is a continuous function of total income. -/
theorem taxOnIncome_continuous : Continuous taxOnIncome := by
  unfold taxOnIncome
  apply Continuous.if_le
  · exact continuous_const
  · apply Continuous.if_le
    · exact (continuous_id.sub continuous_const).mul continuous_const
    · apply Continuous.if_le
      · exact continuous_const.add ((continuous_id.sub continuous_const).mul continuous_const)
      · exact continuous_const.add ((continuous_id.sub continuous_const).mul continuous_const)
      · exact continuous_id
      · exact continuous_const
      · intro x hx
        rw [hx]
        norm_num [basic_rate_threshold, higher_rate_threshold]
    · exact continuous_id
    · exact continuous_const
    · intro x hx
      rw [hx]
      norm_num [personal_allowance, basic_rate_threshold, higher_rate_threshold]
  · exact continuous_id
  · exact continuous_const
  · intro x hx
    rw [hx]
    norm_num [personal_allowance, basic_rate_threshold, higher_rate_threshold]

/-- The band chain is monotone in total income. -/
theorem taxOnIncome_mono {x y : ℚ} (h : x ≤ y) : taxOnIncome x ≤ taxOnIncome y := by
  unfold taxOnIncome personal_allowance basic_rate_threshold higher_rate_threshold
  split_ifs <;> linarith

/-- C2: tax liability as a function of total income is continuous and
non-decreasing, and above each band boundary a marginal increment `d`
raises the tax by exactly `d` times the next band's marginal rate
(0.20, 0.40, 0.45), so the branch formulas agree at the boundaries. -/
theorem tax_continuous_and_banded :
    Continuous (fun x : ℚ => (calculate_tax_liability x 0).tax_liability)
    ∧ (∀ x y : ℚ, 0 ≤ x → x ≤ y →
        (calculate_tax_liability x 0).tax_liability
          ≤ (calculate_tax_liability y 0).tax_liability)
    ∧ (∀ d : ℚ, 0 ≤ d → personal_allowance + d ≤ basic_rate_threshold →
        (calculate_tax_liability (personal_allowance + d) 0).tax_liability
          = (calculate_tax_liability personal_allowance 0).tax_liability + d * (20/100))
    ∧ (∀ d : ℚ, 0 ≤ d → basic_rate_threshold + d ≤ higher_rate_threshold →
        (calculate_tax_liability (basic_rate_threshold + d) 0).tax_liability
          = (calculate_tax_liability basic_rate_threshold 0).tax_liability + d * (40/100))
    ∧ (∀ d : ℚ, 0 ≤ d →
        (calculate_tax_liability (higher_rate_threshold + d) 0).tax_liability
          = (calculate_tax_liability higher_rate_threshold 0).tax_liability + d * (45/100)) := by
  refine ⟨?_, ?_, ?_, ?_, ?_⟩
  · have heq : (fun x : ℚ => (calculate_tax_liability x 0).tax_liability) = taxOnIncome := by
      funext x
      rw [calc_tax_tax, add_zero]
    rw [heq]
    exact taxOnIncome_continuous
  · intro x y hx hxy
    simp only [calc_tax_tax, add_zero]
    exact taxOnIncome_mono hxy
  · intro d hd hb
    simp only [calc_tax_tax, add_zero]
    simp only [personal_allowance, basic_rate_threshold, higher_rate_threshold] at hb
    unfold taxOnIncome personal_allowance basic_rate_threshold higher_rate_threshold
    split_ifs <;> linarith
  · intro d hd hb
    simp only [calc_tax_tax, add_zero]
    simp only [personal_allowance, basic_rate_threshold, higher_rate_threshold] at hb
    unfold taxOnIncome personal_allowance basic_rate_threshold higher_rate_threshold
    split_ifs <;> linarith
  · intro d hd
    simp only [calc_tax_tax, add_zero]
    unfold taxOnIncome personal_allowance basic_rate_threshold higher_rate_threshold
    split_ifs <;> linarith

/-- C2 witness: 100 above the personal allowance is taxed at exactly
`100 × 0.20` more than the allowance itself. -/
theorem tax_continuous_and_banded_witness :
    (calculate_tax_liability (personal_allowance + 100) 0).tax_liability
      = (calculate_tax_liability personal_allowance 0).tax_liability + 100 * (20/100) :=
  tax_continuous_and_banded.2.2.1 100 (by norm_num)
    (by norm_num [personal_allowance, basic_rate_threshold])

/-- C10: for fixed positive face value, non-negative coupon and positive
horizon, `calculate_yield_to_maturity` is strictly decreasing in price on
prices > 0: both calls succeed and the dearer bond yields strictly less. -/
theorem ytm_strictly_decreasing (p1 p2 face_value coupon_rate years_to_maturity : ℚ)
    (hfv : 0 < face_value) (hc : 0 ≤ coupon_rate) (hy : 0 < years_to_maturity)
    (hp1 : 0 < p1) (h12 : p1 < p2) :
    calculate_yield_to_maturity p1 face_value coupon_rate years_to_maturity
        = .ok (ytmFormula p1 face_value coupon_rate years_to_maturity)
    ∧ calculate_yield_to_maturity p2 face_value coupon_rate years_to_maturity
        = .ok (ytmFormula p2 face_value coupon_rate years_to_maturity)
    ∧ ytmFormula p2 face_value coupon_rate years_to_maturity
        < ytmFormula p1 face_value coupon_rate years_to_maturity := by
  have hp2 : 0 < p2 := lt_trans hp1 h12
  have hy2 : years_to_maturity ≠ 0 := ne_of_gt hy
  have key : ∀ p : ℚ, 0 < p → ytmFormula p face_value coupon_rate years_to_maturity
      = ((face_value * (coupon_rate/100) * years_to_maturity + face_value - p) * 100 * 2)
        / (years_to_maturity * (face_value + p)) := by
    intro p hp
    have hfp : face_value + p ≠ 0 := by positivity
    simp only [ytmFormula]
    field_simp
    ring
  refine ⟨?_, ?_, ?_⟩
  · unfold calculate_yield_to_maturity
    rw [if_neg hy2, if_neg (ne_of_gt (by positivity))]
  · unfold calculate_yield_to_maturity
    rw [if_neg hy2, if_neg (ne_of_gt (by positivity))]
  · rw [key p1 hp1, key p2 hp2]
    rw [div_lt_div_iff (by positivity) (by positivity)]
    nlinarith [mul_pos (mul_pos hy (sub_pos.mpr h12)) hfv,
      mul_nonneg (mul_nonneg (mul_nonneg hc hy.le) (sub_pos.mpr h12).le) hfv.le]

/-- C10 witness: at face 100, coupon 5, 10 years, the yield at price 110
is strictly below the yield at price 90. -/
theorem ytm_strictly_decreasing_witness :
    calculate_yield_to_maturity 90 100 5 10 = .ok (ytmFormula 90 100 5 10)
    ∧ calculate_yield_to_maturity 110 100 5 10 = .ok (ytmFormula 110 100 5 10)
    ∧ ytmFormula 110 100 5 10 < ytmFormula 90 100 5 10 :=
  ytm_strictly_decreasing 90 110 100 5 10 (by norm_num) (by norm_num) (by norm_num)
    (by norm_num) (by norm_num)
